import Mathlib

/-!
Verification development for the loraserver uplink pipeline and node API.

The Go sources embedded here are:
* `internal/loraserver/loraserver.go` — the concurrency supervisor
  (`Server.Start` / `Server.Stop`, `handleTXPayloads`, `handleRXPackets`,
  `handleTXMACPayloads`), the packet dispatcher (`handleRXPacket`) and the
  JSON-RPC `API` (notably `CreateNodeSession` and `UpdateNodeSession`).
* `internal/api/node.go` — the gRPC `NodeAPI`
  (`Create`, `Get`, `Update`, `Delete`, `FlushTXPayloadQueue`).

The join and data-up processors (`validateAndCollectJoinRequestPacket`,
`validateAndCollectDataUpRXPacket`) and the `storage` package are part of the
repository but are not among the provided sources; where a property depends on
them they are modelled from the specification, and each such definition says so
in its doc comment.  Machine integers are modelled as `Nat` with explicit
reductions where overflow matters; fallible Go functions become functions into
`Except` paired with the (possibly updated) state, so that "the packet is
dropped and no state is mutated" is expressible as the state component being
returned unchanged.
-/

namespace LoraServer

/-- 64-bit extended unique identifier (`lorawan.EUI64`), as a natural number. -/
abbrev EUI64 := Nat

/-- 128-bit AES key (`lorawan.AES128Key`), as a natural number. -/
abbrev AES128Key := Nat

/-- 32-bit device address (`lorawan.DevAddr`), as a natural number below `2^32`. -/
abbrev DevAddr := Nat

/-- 24-bit network identifier (`lorawan.NetID`), as a natural number. -/
abbrev NetID := Nat

/-- Embedding of `lorawan.DevAddr.NwkID`: the seven most significant bits of the 32-bit
address (`a[0] >> 1` on the big-endian byte array in the lorawan library,
which the spec describes as the network-identifier bits in the high bits of
the dynamic address). -/
def DevAddr.nwkID (a : DevAddr) : Nat := a / 2 ^ 25 % 128

/-- Embedding of `lorawan.NetID.NwkID`: the seven least significant bits of the 24-bit
network identifier (`n[2] & 127` in the lorawan library). -/
def NetID.nwkID (n : NetID) : Nat := n % 128

/-- Embedding of `lorawan.MType`: the LoRaWAN message types (MHDR major frame types). -/
inductive MType where
  | JoinRequest
  | JoinAccept
  | UnconfirmedDataUp
  | UnconfirmedDataDown
  | ConfirmedDataUp
  | ConfirmedDataDown
  | RFU
  | Proprietary
deriving DecidableEq, Repr

/-- The error classes the pipeline distinguishes (the Go code uses wrapped
`error` values; the spec names the classes used here). -/
inductive LSError where
  | authentication
  | replay
  | sessionNotFound
  | nodeNotFound
  | appNotFound
  | devAddrNwkIDMismatch
  | unknownMType (m : MType)
deriving DecidableEq, Repr

/-- Embedding of `models.Node`: the static device record.  `channelListID` is the optional
channel-list reference (`*int64` in Go, positive when present). -/
structure Node where
  devEUI : EUI64
  appEUI : EUI64
  appKey : AES128Key
  rxDelay : Nat
  rx1DROffset : Nat
  channelListID : Option Int
deriving DecidableEq, Repr

/-- Embedding of `models.NodeSession`: the dynamic per-activation session state. -/
structure NodeSession where
  devAddr : DevAddr
  devEUI : EUI64
  appEUI : EUI64
  nwkSKey : AES128Key
  appSKey : AES128Key
  fcntUp : Nat
  fcntDown : Nat
deriving DecidableEq, Repr

/-- Embedding of `models.RXPacket`, flattened: the inbound frame's message type together
with the fields of the two payload shapes the pipeline inspects (data-up
frames use `devAddr`/`fcnt`/`fport`/`frmPayload`/`fopts`; join requests use
`appEUI`/`devEUI`/`devNonce`); `mic` is the carried message-integrity code. -/
structure RXPacket where
  mtype : MType
  devAddr : DevAddr
  fcnt : Nat
  fport : Nat
  frmPayload : List Nat
  fopts : List Nat
  appEUI : EUI64
  devEUI : EUI64
  devNonce : Nat
  mic : Nat
deriving DecidableEq, Repr

/-- Embedding of `models.TXPayload`: an application payload queued for downlink. -/
structure TXPayload where
  devEUI : EUI64
  reference : String
  data : List Nat
deriving DecidableEq, Repr

/-- Embedding of `models.MACPayload`: a MAC command queued for downlink. -/
structure MACPayload where
  devEUI : EUI64
  reference : String
  macCommand : List Nat
deriving DecidableEq, Repr

/-- The server configuration relevant here (`loraserver.Context`): the
configured network identifier. -/
structure Context where
  netID : NetID
deriving DecidableEq, Repr

/-- The externally stored state the pipeline reads and writes: the device and
application registries (PostgreSQL in Go), the session store and the two
downlink queues (Redis in Go), and the two outbound backend streams the
data-up processor pushes to (decoded application payloads, extracted MAC
commands). -/
structure ServerState where
  nodes : List Node
  apps : List EUI64
  sessions : List NodeSession
  txQueue : List TXPayload
  macQueue : List MACPayload
  appOut : List (EUI64 × EUI64 × List Nat)
  ctrlOut : List (EUI64 × List Nat)
deriving DecidableEq, Repr

/-- Modelled from the spec: registry lookup of a `Node` by device identity
(`storage.GetNode`, not among the provided sources); fails with a not-found
error for an unprovisioned device. -/
def getNode (nodes : List Node) (devEUI : EUI64) : Except LSError Node :=
  match nodes.find? (fun n => n.devEUI = devEUI) with
  | some n => .ok n
  | none => .error .nodeNotFound

/-- Modelled from the spec: registry lookup of an application by identity
(`storage.GetApplication`, not among the provided sources); fails with a
not-found error for an unknown application. -/
def getApplication (apps : List EUI64) (appEUI : EUI64) : Except LSError Unit :=
  if apps.contains appEUI then .ok () else .error .appNotFound

/-- Modelled from the spec: session lookup by dynamic address
(`storage.GetNodeSession`, not among the provided sources). -/
def getNodeSession (sessions : List NodeSession) (a : DevAddr) :
    Except LSError NodeSession :=
  match sessions.find? (fun s => s.devAddr = a) with
  | some s => .ok s
  | none => .error .sessionNotFound

/-- Modelled from the spec: upsert of a session (`storage.SaveNodeSession` /
`storage.CreateNodeSession` at the Redis layer, not among the provided
sources).  The store keeps at most one entry per dynamic address, and
re-activation replaces the prior session for the same device identity. -/
def saveNodeSession (sessions : List NodeSession) (ns : NodeSession) :
    List NodeSession :=
  ns :: sessions.filter (fun s => s.devAddr ≠ ns.devAddr ∧ s.devEUI ≠ ns.devEUI)

/-- Modelled from the spec: the message-integrity code of a join request is a
keyed checksum over the frame computed with the device's root key.  The
bit-exact code belongs to the excluded codec; a concrete injective-enough
stand-in pairing is used, which no claim's truth depends on (claims are
conditioned on the carried code being equal or unequal to the computed one). -/
def computeJoinMIC (key : AES128Key) (appEUI devEUI : EUI64) (devNonce : Nat) :
    Nat :=
  key + 3 * appEUI + 5 * devEUI + 7 * devNonce + 1

/-- Modelled from the spec: the message-integrity code of a data frame is a
keyed checksum over the frame computed with the session's network session key
(same stand-in convention as `computeJoinMIC`). -/
def computeDataMIC (key : AES128Key) (devAddr fcnt : Nat)
    (frmPayload : List Nat) : Nat :=
  key + 3 * devAddr + 5 * fcnt + 7 * frmPayload.sum + 2

/-- Modelled from the spec: the LoRaWAN session-key derivation, a pure
function of the root key and the join nonce (stand-in pairing; the first
component is the network session key, the second the application session
key). -/
def deriveSessionKeys (appKey : AES128Key) (devNonce : Nat) :
    AES128Key × AES128Key :=
  (2 * appKey + devNonce + 1, 2 * appKey + devNonce + 2)

/-- Modelled from the spec: decryption of an application payload with the
application session key (excluded codec; concrete invertible stand-in). -/
def decryptFRMPayload (key : AES128Key) (data : List Nat) : List Nat :=
  data.map (fun b => (b + key) % 256)

/-- Modelled from the spec: dynamic-address allocation — draw addresses whose
network-identifier bits are fixed to the configured identifier, retrying on
collision with an existing session, with bounded retry (exhaustion is a fatal
allocation error).  The draw is modelled as a deterministic scan of a bounded
candidate window. -/
def allocDevAddr (ctx : Context) (sessions : List NodeSession) :
    Option DevAddr :=
  ((List.range 64).map (fun i => ctx.netID.nwkID * 2 ^ 25 + i)).find?
    (fun a => ¬ sessions.any (fun s => s.devAddr = a))

/-- Modelled from the spec (§4.2, `validateAndCollectJoinRequestPacket` is not
among the provided sources): join processing — resolve the device record to
obtain the root key (not-found error for an unprovisioned device), verify the
frame's message-integrity code against that root key (authentication error on
mismatch), check the referenced application is provisioned (not-found error),
allocate a dynamic address inside the configured network identifier, derive
the session keys from the root key and the join nonce, and persist a fresh
session with counters reset to zero, replacing any prior session for the same
device identity.  Every failure leaves the state unchanged (frame dropped). -/
def validateAndCollectJoinRequestPacket (ctx : Context) (st : ServerState)
    (p : RXPacket) : ServerState × Except LSError Unit :=
  match getNode st.nodes p.devEUI with
  | .error e => (st, .error e)
  | .ok node =>
    if p.mic ≠ computeJoinMIC node.appKey p.appEUI p.devEUI p.devNonce then
      (st, .error .authentication)
    else
      match getApplication st.apps p.appEUI with
      | .error e => (st, .error e)
      | .ok _ =>
        match allocDevAddr ctx st.sessions with
        | none => (st, .error .sessionNotFound)
        | some addr =>
          let keys := deriveSessionKeys node.appKey p.devNonce
          let ns : NodeSession :=
            { devAddr := addr, devEUI := p.devEUI, appEUI := p.appEUI,
              nwkSKey := keys.1, appSKey := keys.2, fcntUp := 0, fcntDown := 0 }
          ({ st with sessions := saveNodeSession st.sessions ns }, .ok ())

/-- Modelled from the spec (§4.3, `validateAndCollectDataUpRXPacket` is not
among the provided sources): data-uplink processing — look up the session by
the frame's dynamic address (session-not-found error if absent), verify the
message-integrity code with the network session key (authentication error on
mismatch), accept the frame only if its uplink counter is strictly greater
than the stored one (replay error otherwise), forward the decrypted
application payload and any MAC commands, and persist the session with the
frame's counter.  Every failure leaves the state unchanged (frame dropped). -/
def validateAndCollectDataUpRXPacket (ctx : Context) (st : ServerState)
    (p : RXPacket) : ServerState × Except LSError Unit :=
  match getNodeSession st.sessions p.devAddr with
  | .error e => (st, .error e)
  | .ok ns =>
    if p.mic ≠ computeDataMIC ns.nwkSKey p.devAddr p.fcnt p.frmPayload then
      (st, .error .authentication)
    else if p.fcnt ≤ ns.fcntUp then
      (st, .error .replay)
    else
      let st1 :=
        if p.frmPayload ≠ [] then
          { st with appOut := st.appOut ++
              [(ns.devEUI, ns.appEUI, decryptFRMPayload ns.appSKey p.frmPayload)] }
        else st
      let st2 :=
        if p.fopts ≠ [] then
          { st1 with ctrlOut := st1.ctrlOut ++ [(ns.devEUI, p.fopts)] }
        else st1
      let ns1 := { ns with fcntUp := p.fcnt }
      ({ st2 with sessions := saveNodeSession st2.sessions ns1 }, .ok ())

/-- Embedding of `handleRXPacket` (loraserver.go:116-125): dispatch on the declared message
type — join requests go to the join processor, confirmed and unconfirmed
data-up frames to the data-up processor, and any other message type is an
"unknown MType" error with the state untouched. -/
def handleRXPacket (ctx : Context) (st : ServerState) (p : RXPacket) :
    ServerState × Except LSError Unit :=
  match p.mtype with
  | .JoinRequest => validateAndCollectJoinRequestPacket ctx st p
  | .UnconfirmedDataUp => validateAndCollectDataUpRXPacket ctx st p
  | .ConfirmedDataUp => validateAndCollectDataUpRXPacket ctx st p
  | m => (st, .error (.unknownMType m))

/-- Embedding of `handleTXPayloads` (loraserver.go:65-81): drain the application backend's
outbound-payload stream, handing each item to `storage.AddTXPayloadToQueue`;
on failure the error is logged (with device identity, reference and payload
rendered) and the item is dropped, and the loop continues with the next item.
The channel is modelled as the list of items it delivers; the fallible Redis
call is modelled by the oracle `addErr` giving the I/O outcome per item
(`none` = enqueued, `some e` = failed with error text `e`).  The result is the
final queue contents and the log entries produced, in order. -/
def handleTXPayloads (addErr : TXPayload → Option String) :
    List TXPayload → List TXPayload → List TXPayload × List String
  | [], queue => (queue, [])
  | t :: rest, queue =>
    match addErr t with
    | some e =>
      let r := handleTXPayloads addErr rest queue
      (r.1, ("add tx-payload to queue error: " ++ e) :: r.2)
    | none => handleTXPayloads addErr rest (queue ++ [t])

/-- Embedding of `handleTXMACPayloads` (loraserver.go:98-114): same loop as
`handleTXPayloads` for the controller backend's outbound MAC-command stream
and `storage.AddMACPayloadToTXQueue`. -/
def handleTXMACPayloads (addErr : MACPayload → Option String) :
    List MACPayload → List MACPayload → List MACPayload × List String
  | [], queue => (queue, [])
  | m :: rest, queue =>
    match addErr m with
    | some e =>
      let r := handleTXMACPayloads addErr rest queue
      (r.1, ("add tx mac-payload to queue error: " ++ e) :: r.2)
    | none => handleTXMACPayloads addErr rest (queue ++ [m])

/-- Embedding of `handleRXPackets` (loraserver.go:83-96): drain the gateway backend's
frame stream, handing each packet to `handleRXPacket`; on failure the error
is logged (with the frame rendered) and the packet is dropped, and the loop
continues.  The channel is modelled as the list of delivered packets; the
result is the final state and the log entries produced, in order. -/
def handleRXPackets (ctx : Context) :
    List RXPacket → ServerState → ServerState × List String
  | [], st => (st, [])
  | p :: rest, st =>
    let r := handleRXPacket ctx st p
    let k := handleRXPackets ctx rest r.1
    match r.2 with
    | .error _ => (k.1, "processing rx packet error" :: k.2)
    | .ok _ => k

/-- The externally observable steps of `Server.Stop`: invoking the close
operation of each backend, and waiting for pending workers. -/
inductive StopEvent where
  | closeGateway
  | closeApplication
  | closeController
  | waitPending
deriving DecidableEq, Repr

/-- Embedding of `Server.Stop` (loraserver.go:49-63) as a trace semantics: close the
gateway backend, then the application backend, then the network-controller
backend, returning the wrapped error of the first close that fails; only when
all three succeed, wait for pending actions.  The three `Option String`
arguments are the outcomes of the backends' close operations (`none` =
success); the result is the ordered list of steps performed and the value
`Stop` returns. -/
def serverStop (g a c : Option String) : List StopEvent × Option String :=
  match g with
  | some e => ([.closeGateway], some ("close gateway backend error: " ++ e))
  | none =>
    match a with
    | some e => ([.closeGateway, .closeApplication],
        some ("close application backend error: " ++ e))
    | none =>
      match c with
      | some e => ([.closeGateway, .closeApplication, .closeController],
          some ("close network-controller backend error: " ++ e))
      | none => ([.closeGateway, .closeApplication, .closeController,
          .waitPending], none)

/-- One atomic action in the wait-group model of the shutdown drain.  In the
Go source every worker goroutine runs `wg.Add(1)`, then its processing, then
`wg.Done()` — crucially the `Add` happens inside the spawned goroutine
(loraserver.go:29-43 and 86-93), not before the spawn.  The drain side runs
`wg.Wait()`. -/
inductive WGAction where
  | add
  | done
  | work
  | wait
deriving DecidableEq, Repr

/-- The shared state of the wait-group model: the wait-group counter, whether
`wg.Wait()` has returned (shutdown declared complete), and whether a worker's
processing step has executed after `wg.Wait()` returned. -/
structure WGState where
  counter : Nat
  waitReturned : Bool
  workAfterWait : Bool
deriving DecidableEq, Repr

/-- The initial wait-group state: counter zero, nothing returned or run. -/
def WGState.start : WGState :=
  { counter := 0, waitReturned := false, workAfterWait := false }

/-- Semantics of one action against the wait-group state, following Go's
`sync.WaitGroup`: `Add` increments the counter, `Done` decrements it, `Wait`
can only complete while the counter is zero (it blocks otherwise, modelled as
the action being disabled), and the worker's processing step records whether
it ran after `Wait` had already returned. -/
def wgStep (s : WGState) : WGAction → Option WGState
  | .add => some { s with counter := s.counter + 1 }
  | .done =>
    if s.counter = 0 then none else some { s with counter := s.counter - 1 }
  | .work => some { s with workAfterWait := s.workAfterWait || s.waitReturned }
  | .wait => if s.counter = 0 then some { s with waitReturned := true } else none

/-- Run a schedule of actions from a wait-group state; `none` when some
action was disabled at its turn (an invalid schedule). -/
def wgRun (s : WGState) : List WGAction → Option WGState
  | [] => some s
  | a :: rest =>
    match wgStep s a with
    | none => none
    | some s1 => wgRun s1 rest

/-- Whether a schedule is an interleaving of two threads' action sequences
(each thread's actions appear in their program order). -/
def isInterleaving : List WGAction → List WGAction → List WGAction → Bool
  | [], t, u => t.isEmpty && u.isEmpty
  | a :: s, t, u =>
    (match t with
     | x :: t1 => a == x && isInterleaving s t1 u
     | [] => false)
    ||
    (match u with
     | y :: u1 => a == y && isInterleaving s t u1
     | [] => false)

/-- The drain thread: after the closed channel's range loop ends, it executes
`wg.Wait()` and (on the `Server.wg` level) lets `Stop` return. -/
def drainThread : List WGAction := [.wait]

/-- A worker goroutine spawned for one in-flight item: `wg.Add(1)`, the
item's processing, `wg.Done()` — the order the Go source executes inside the
spawned closure. -/
def workerThread : List WGAction := [.add, .work, .done]

/-- The racy schedule: the spawned worker has not yet been scheduled when the
drain runs `wg.Wait()`; the counter is still zero, so `Wait` returns at once,
and the worker performs its processing afterwards. -/
def raceSchedule : List WGAction := [.wait, .add, .work, .done]

/-- Embedding of `API.CreateNodeSession` (loraserver.go:305-326): validate that the
session's dynamic address carries the configured network identifier in its
`NwkID` bits, that the referenced node exists, and that the referenced
application exists; only then persist the session and return its address.
Every failure returns the state unchanged. -/
def apiCreateNodeSession (ctx : Context) (st : ServerState)
    (ns : NodeSession) : ServerState × Except LSError DevAddr :=
  if ns.devAddr.nwkID ≠ ctx.netID.nwkID then
    (st, .error .devAddrNwkIDMismatch)
  else
    match getNode st.nodes ns.devEUI with
    | .error e => (st, .error e)
    | .ok _ =>
      match getApplication st.apps ns.appEUI with
      | .error e => (st, .error e)
      | .ok _ =>
        ({ st with sessions := saveNodeSession st.sessions ns }, .ok ns.devAddr)

/-- Embedding of `API.UpdateNodeSession` (loraserver.go:329-335): persist the given
session via `storage.SaveNodeSession` (an upsert) and return its device
identity — no validation of the address's `NwkID` bits and no existence check
of the referenced node or application is performed. -/
def apiUpdateNodeSession (_ctx : Context) (st : ServerState)
    (ns : NodeSession) : ServerState × Except LSError EUI64 :=
  ({ st with sessions := saveNodeSession st.sessions ns }, .ok ns.devEUI)

/-- Modelled from the spec: `storage.FlushTXPayloadQueue` (not among the
provided sources) clears all pending queue entries for the given device
identity; called by `NodeAPI.FlushTXPayloadQueue` (node.go:178-187). -/
def flushTXPayloadQueue (queue : List TXPayload) (devEUI : EUI64) :
    List TXPayload :=
  queue.filter (fun t => t.devEUI ≠ devEUI)

/-- Modelled from the spec: a read of the pending queue entries for one
device identity, in FIFO order. -/
def readTXPayloadQueue (queue : List TXPayload) (devEUI : EUI64) :
    List TXPayload :=
  queue.filter (fun t => t.devEUI = devEUI)

/-- Embedding of `pb.UpdateNodeRequest` after the identity/key text fields have been
unmarshalled (the text parsing itself belongs to the excluded lorawan codec):
the parsed application identity, device identity and root key, the `uint32`
delay and offset fields, and the `int64` channel-list identifier. -/
structure UpdateNodeRequest where
  appEUI : EUI64
  devEUI : EUI64
  appKey : AES128Key
  rxDelay : Nat
  rx1DROffset : Nat
  channelListID : Int
deriving DecidableEq, Repr

/-- Modelled from the spec: `storage.UpdateNode` (not among the provided
sources) replaces the registry record whose device identity matches the given
node's. -/
def updateNode (nodes : List Node) (node : Node) : List Node :=
  nodes.map (fun n => if n.devEUI = node.devEUI then node else n)

/-- Embedding of `NodeAPI.Update` (node.go:127-161): look up the node for the requested
device identity (failing, with nothing mutated, when it does not exist), then
replace its application identity, root key, receive-delay and RX1 data-rate
offset from the request (the two `uint32` fields are narrowed to `uint8`,
modelled as reduction modulo 256), set the channel-list reference only when
the requested identifier is strictly positive and clear it otherwise, and
store the updated record. -/
def nodeAPIUpdate (nodes : List Node) (req : UpdateNodeRequest) :
    List Node × Except LSError Unit :=
  match getNode nodes req.devEUI with
  | .error e => (nodes, .error e)
  | .ok node =>
    let node1 : Node :=
      { node with
        appEUI := req.appEUI
        appKey := req.appKey
        rxDelay := req.rxDelay % 256
        rx1DROffset := req.rx1DROffset % 256
        channelListID :=
          if 0 < req.channelListID then some req.channelListID else none }
    (updateNode nodes node1, .ok ())

/-! Concrete states and packets used by the witnesses below. -/

/-- A server configuration with network identifier 1. -/
def ctxW : Context := { netID := 1 }

/-- The empty external state. -/
def stEmpty : ServerState :=
  { nodes := [], apps := [], sessions := [], txQueue := [], macQueue := [],
    appOut := [], ctrlOut := [] }

/-! Helper lemmas about the session store. -/

/-- A successful session lookup returns a session keyed by the queried
address. -/
theorem getNodeSession_ok_addr {sessions : List NodeSession} {a : DevAddr}
    {ns : NodeSession} (h : getNodeSession sessions a = .ok ns) :
    ns.devAddr = a := by
  unfold getNodeSession at h
  cases hf : sessions.find? (fun s => s.devAddr = a) with
  | none => rw [hf] at h; exact absurd h (by simp)
  | some s =>
    rw [hf] at h
    have hp := List.find?_some hf
    simp only [Except.ok.injEq] at h
    subst h
    simpa using hp

/-- Looking up the address of a just-saved session returns that session. -/
theorem getNodeSession_save (sessions : List NodeSession) (ns : NodeSession) :
    getNodeSession (saveNodeSession sessions ns) ns.devAddr = .ok ns := by
  simp [getNodeSession, saveNodeSession, List.find?_cons]

/-- Claim C3: the dispatcher routes a join request to the join processor, a
confirmed or unconfirmed data-up frame to the data-up processor, and returns
an unsupported-message-type error, with the state untouched, for every other
message type. -/
theorem dispatch_by_mtype (ctx : Context) (st : ServerState) (p : RXPacket) :
    (p.mtype = .JoinRequest →
      handleRXPacket ctx st p = validateAndCollectJoinRequestPacket ctx st p) ∧
    (p.mtype = .UnconfirmedDataUp ∨ p.mtype = .ConfirmedDataUp →
      handleRXPacket ctx st p = validateAndCollectDataUpRXPacket ctx st p) ∧
    (p.mtype ≠ .JoinRequest → p.mtype ≠ .UnconfirmedDataUp →
      p.mtype ≠ .ConfirmedDataUp →
      handleRXPacket ctx st p = (st, .error (.unknownMType p.mtype))) := by
  cases hm : p.mtype <;> simp [handleRXPacket, hm]

/-- A frame whose message type is a join-accept (neither activation request
nor data-up), used to exercise the dispatcher's default branch. -/
def pJoinAccept : RXPacket :=
  { mtype := .JoinAccept, devAddr := 0, fcnt := 0, fport := 0, frmPayload := [],
    fopts := [], appEUI := 0, devEUI := 0, devNonce := 0, mic := 0 }

/-- Witness for C3: dispatching a join-accept frame yields the
unsupported-message-type error and leaves the state unchanged. -/
theorem dispatch_by_mtype_witness :
    handleRXPacket ctxW stEmpty pJoinAccept =
      (stEmpty, .error (.unknownMType .JoinAccept)) :=
  (dispatch_by_mtype ctxW stEmpty pJoinAccept).2.2
    (by decide) (by decide) (by decide)

/-- Claim C5 (refuted): `Server.Stop` does not always wait for in-flight
workers.  Because every `wg.Add(1)` is executed inside the spawned goroutine
rather than before the spawn, there is a valid schedule — an interleaving of
the drain thread's `wg.Wait()` with a spawned worker's `Add`/process/`Done`
sequence — in which `Wait` observes a zero counter and returns (shutdown
declared complete) while the worker has not yet started, and the worker's
processing then runs after `Wait` returned. -/
theorem stop_wait_worker_race :
    isInterleaving raceSchedule drainThread workerThread = true ∧
    wgRun WGState.start raceSchedule =
      some { counter := 0, waitReturned := true, workAfterWait := true } := by
  exact ⟨rfl, rfl⟩

/-- Claim C6: shutdown closes the backends in the order gateway, application,
network-controller; the first close failure is returned synchronously (as a
wrapped error), the later backends' close operations are not invoked, and the
wait for pending workers is skipped; when all three succeed, all are closed in
order and the wait runs. -/
theorem stop_close_order_and_first_error (a c : Option String) :
    serverStop none none none =
      ([.closeGateway, .closeApplication, .closeController, .waitPending],
        none) ∧
    (∀ e, serverStop (some e) a c =
      ([.closeGateway], some ("close gateway backend error: " ++ e))) ∧
    (∀ e, serverStop none (some e) c =
      ([.closeGateway, .closeApplication],
        some ("close application backend error: " ++ e))) ∧
    (∀ e, serverStop none none (some e) =
      ([.closeGateway, .closeApplication, .closeController],
        some ("close network-controller backend error: " ++ e))) :=
  ⟨rfl, fun _ => rfl, fun _ => rfl, fun _ => rfl⟩

/-- Claim C8: flushing a device's payload queue removes every pending entry
for that device, so a read immediately afterwards yields the empty queue. -/
theorem flush_then_read_empty (queue : List TXPayload) (devEUI : EUI64) :
    readTXPayloadQueue (flushTXPayloadQueue queue devEUI) devEUI = [] ∧
    (flushTXPayloadQueue queue devEUI).all
      (fun t => t.devEUI != devEUI) = true := by
  constructor
  · induction queue with
    | nil => rfl
    | cons t ts ih =>
      by_cases h : t.devEUI = devEUI <;>
        simp_all [flushTXPayloadQueue, readTXPayloadQueue, List.filter_cons]
  · induction queue with
    | nil => rfl
    | cons t ts ih =>
      by_cases h : t.devEUI = devEUI <;>
        simp_all [flushTXPayloadQueue, List.filter_cons]

/-- A session whose dynamic address has network-identifier bits 0, while
`ctxW` is configured with network-identifier bits 1. -/
def nsBad : NodeSession :=
  { devAddr := 0, devEUI := 42, appEUI := 7, nwkSKey := 1, appSKey := 2,
    fcntUp := 0, fcntDown := 0 }

/-- Claim C9: `UpdateNodeSession` upserts unconditionally — it performs no
network-identifier validation and no device or application existence check —
and in particular a session whose address's network-identifier bits differ
from the configured one, for a device and application absent from the
registry, is persisted successfully. -/
theorem updateNodeSession_no_validation :
    (∀ ctx st ns, apiUpdateNodeSession ctx st ns =
      ({ st with sessions := saveNodeSession st.sessions ns },
        .ok ns.devEUI)) ∧
    (DevAddr.nwkID nsBad.devAddr ≠ NetID.nwkID ctxW.netID ∧
      stEmpty.nodes = [] ∧ stEmpty.apps = [] ∧
      apiUpdateNodeSession ctxW stEmpty nsBad =
        ({ stEmpty with sessions := [nsBad] }, .ok nsBad.devEUI) ∧
      getNodeSession (apiUpdateNodeSession ctxW stEmpty nsBad).1.sessions
        nsBad.devAddr = .ok nsBad) :=
  ⟨fun _ _ _ => rfl, by decide, rfl, rfl, rfl, rfl⟩

/-- Claim C1: for a data-up frame addressed to an existing session with
stored uplink counter `c` (and carrying a valid message-integrity code, which
the processor checks first), a frame counter `≤ c` is rejected as a replay
with the state untouched, and a frame counter `> c` is accepted, after which
the session stored under the frame's address carries the frame's counter. -/
theorem dataUp_replay_protection (ctx : Context) (st : ServerState)
    (p : RXPacket) (ns : NodeSession)
    (hs : getNodeSession st.sessions p.devAddr = .ok ns)
    (hmic : p.mic = computeDataMIC ns.nwkSKey p.devAddr p.fcnt p.frmPayload) :
    (p.fcnt ≤ ns.fcntUp →
      validateAndCollectDataUpRXPacket ctx st p = (st, .error .replay)) ∧
    (ns.fcntUp < p.fcnt →
      (validateAndCollectDataUpRXPacket ctx st p).2 = .ok () ∧
      getNodeSession (validateAndCollectDataUpRXPacket ctx st p).1.sessions
        p.devAddr = .ok { ns with fcntUp := p.fcnt }) := by
  have haddr := getNodeSession_ok_addr hs
  have key : ∀ q : List NodeSession,
      getNodeSession (saveNodeSession q { ns with fcntUp := p.fcnt })
        p.devAddr = .ok { ns with fcntUp := p.fcnt } := by
    intro q
    have h1 := getNodeSession_save q { ns with fcntUp := p.fcnt }
    simpa [haddr] using h1
  constructor
  · intro hle
    unfold validateAndCollectDataUpRXPacket
    split
    next e he => rw [hs] at he; simp at he
    next ns' hns' =>
      rw [hs] at hns'
      injection hns' with hns'
      subst hns'
      rw [if_neg (not_not_intro hmic), if_pos hle]
  · intro hlt
    unfold validateAndCollectDataUpRXPacket
    split
    next e he => rw [hs] at he; simp at he
    next ns' hns' =>
      rw [hs] at hns'
      injection hns' with hns'
      subst hns'
      rw [if_neg (not_not_intro hmic), if_neg (by omega : ¬ p.fcnt ≤ ns.fcntUp)]
      exact ⟨rfl, key _⟩

/-- The session used by the C1 witness: stored uplink counter 3. -/
def nsC1 : NodeSession :=
  { devAddr := 33554432, devEUI := 1, appEUI := 2, nwkSKey := 10,
    appSKey := 11, fcntUp := 3, fcntDown := 0 }

/-- A state holding only the C1 witness session. -/
def stC1 : ServerState := { stEmpty with sessions := [nsC1] }

/-- A confirmed data-up frame for the C1 witness session with counter 5 and a
valid message-integrity code. -/
def pC1 : RXPacket :=
  { mtype := .ConfirmedDataUp, devAddr := 33554432, fcnt := 5, fport := 1,
    frmPayload := [1, 2], fopts := [], appEUI := 0, devEUI := 0,
    devNonce := 0, mic := computeDataMIC 10 33554432 5 [1, 2] }

/-- The same frame with counter 3 (equal to the stored counter) and a valid
message-integrity code for that counter. -/
def pC1replay : RXPacket :=
  { pC1 with fcnt := 3, mic := computeDataMIC 10 33554432 3 [1, 2] }

/-- Witness for C1: the counter-5 frame is accepted against the counter-3
session and the stored counter becomes 5; the counter-3 frame is rejected as
a replay with the state unchanged. -/
theorem dataUp_replay_protection_witness :
    ((validateAndCollectDataUpRXPacket ctxW stC1 pC1).2 = .ok () ∧
      getNodeSession
        (validateAndCollectDataUpRXPacket ctxW stC1 pC1).1.sessions
        pC1.devAddr = .ok { nsC1 with fcntUp := 5 }) ∧
    validateAndCollectDataUpRXPacket ctxW stC1 pC1replay =
      (stC1, .error .replay) :=
  ⟨(dataUp_replay_protection ctxW stC1 pC1 nsC1 rfl rfl).2 (by decide),
   (dataUp_replay_protection ctxW stC1 pC1replay nsC1 rfl rfl).1 (by decide)⟩

/-- Claim C2: a join request whose message-integrity code does not verify
against the root key of the referenced identity fails with an authentication
error and the state — in particular the session store — is unchanged: no
session is created. -/
theorem joinRequest_bad_mic_no_session (ctx : Context) (st : ServerState)
    (p : RXPacket) (node : Node)
    (hn : getNode st.nodes p.devEUI = .ok node)
    (hmic : p.mic ≠ computeJoinMIC node.appKey p.appEUI p.devEUI p.devNonce) :
    validateAndCollectJoinRequestPacket ctx st p =
      (st, .error .authentication) ∧
    (validateAndCollectJoinRequestPacket ctx st p).1.sessions = st.sessions := by
  have h : validateAndCollectJoinRequestPacket ctx st p =
      (st, .error .authentication) := by
    unfold validateAndCollectJoinRequestPacket
    split
    next e he => rw [hn] at he; simp at he
    next node' hnode' =>
      rw [hn] at hnode'
      injection hnode' with hnode'
      subst hnode'
      rw [if_pos hmic]
  exact ⟨h, by rw [h]⟩

/-- The provisioned device record used by the C2 witness (root key 100). -/
def nodeC2 : Node :=
  { devEUI := 9, appEUI := 8, appKey := 100, rxDelay := 1, rx1DROffset := 0,
    channelListID := none }

/-- A state provisioning the C2 witness device and its application. -/
def stC2 : ServerState := { stEmpty with nodes := [nodeC2], apps := [8] }

/-- A join request for the C2 witness device carrying integrity code 0, which
does not verify against root key 100. -/
def pC2 : RXPacket :=
  { mtype := .JoinRequest, devAddr := 0, fcnt := 0, fport := 0,
    frmPayload := [], fopts := [], appEUI := 8, devEUI := 9, devNonce := 4,
    mic := 0 }

/-- Witness for C2: the invalid join request is rejected with an
authentication error and the session store stays empty. -/
theorem joinRequest_bad_mic_no_session_witness :
    validateAndCollectJoinRequestPacket ctxW stC2 pC2 =
      (stC2, .error .authentication) ∧
    (validateAndCollectJoinRequestPacket ctxW stC2 pC2).1.sessions =
      stC2.sessions :=
  joinRequest_bad_mic_no_session ctxW stC2 pC2 nodeC2 rfl (by decide)

/-- Claim C4: `CreateNodeSession` rejects, leaving the state unchanged, every
session whose address's network-identifier bits differ from the configured
network identifier; and every session it creates successfully satisfies the
invariant and is retrievable from the store. -/
theorem createNodeSession_nwkid_checked (ctx : Context) (st : ServerState)
    (ns : NodeSession) :
    (DevAddr.nwkID ns.devAddr ≠ NetID.nwkID ctx.netID →
      apiCreateNodeSession ctx st ns = (st, .error .devAddrNwkIDMismatch)) ∧
    (∀ st1 a, apiCreateNodeSession ctx st ns = (st1, .ok a) →
      DevAddr.nwkID ns.devAddr = NetID.nwkID ctx.netID ∧
      getNodeSession st1.sessions ns.devAddr = .ok ns) := by
  constructor
  · intro hne
    unfold apiCreateNodeSession
    rw [if_pos hne]
  · intro st1 a h
    unfold apiCreateNodeSession at h
    by_cases hw : DevAddr.nwkID ns.devAddr ≠ NetID.nwkID ctx.netID
    · rw [if_pos hw] at h
      simp at h
    · rw [if_neg hw] at h
      rw [not_not] at hw
      split at h
      next e he => simp at h
      next node hnode =>
        split at h
        next e he2 => simp at h
        next u ha =>
          simp only [Prod.mk.injEq] at h
          obtain ⟨h1, _⟩ := h
          subst h1
          exact ⟨hw, getNodeSession_save st.sessions ns⟩

/-- The session used by the C4 witness: its address `2^25` has
network-identifier bits 1, matching `ctxW`'s configured identifier. -/
def nsC4 : NodeSession :=
  { devAddr := 33554432, devEUI := 9, appEUI := 8, nwkSKey := 5, appSKey := 6,
    fcntUp := 0, fcntDown := 0 }

/-- The C4 witness session with its address's network-identifier bits set to
0 instead of the configured 1. -/
def nsC4bad : NodeSession := { nsC4 with devAddr := 7 }

/-- Witness for C4: creating `nsC4` (matching bits, provisioned device and
application) succeeds and the stored session satisfies the invariant, while
creating `nsC4bad` (mismatched bits) is rejected with the state unchanged. -/
theorem createNodeSession_nwkid_checked_witness :
    (DevAddr.nwkID nsC4.devAddr = NetID.nwkID ctxW.netID ∧
      getNodeSession
        (apiCreateNodeSession ctxW stC2 nsC4).1.sessions nsC4.devAddr =
        .ok nsC4) ∧
    apiCreateNodeSession ctxW stC2 nsC4bad =
      (stC2, .error .devAddrNwkIDMismatch) :=
  ⟨(createNodeSession_nwkid_checked ctxW stC2 nsC4).2
      (apiCreateNodeSession ctxW stC2 nsC4).1 nsC4.devAddr rfl,
   (createNodeSession_nwkid_checked ctxW stC2 nsC4bad).1 (by decide)⟩

/-! Helper lemmas for the registry and the stream loops. -/

/-- A successful registry lookup returns the record keyed by the queried
identity. -/
theorem getNode_ok_eui {nodes : List Node} {eui : EUI64} {node : Node}
    (h : getNode nodes eui = .ok node) : node.devEUI = eui := by
  unfold getNode at h
  cases hf : nodes.find? (fun n => n.devEUI = eui) with
  | none => rw [hf] at h; simp at h
  | some n =>
    rw [hf] at h
    have hp := List.find?_some hf
    injection h with h
    subst h
    simpa using hp

/-- Replacing the record for an existing key makes the lookup of that key
return the replacement. -/
theorem getNode_updateNode {nodes : List Node} {eui : EUI64} {node : Node}
    (h : getNode nodes eui = .ok node) (node1 : Node)
    (hkey : node1.devEUI = eui) :
    getNode (updateNode nodes node1) eui = .ok node1 := by
  induction nodes with
  | nil => simp [getNode] at h
  | cons n rest ih =>
    by_cases hn : n.devEUI = eui
    · simp [getNode, updateNode, List.find?_cons, hn, hkey]
    · have h1 : getNode rest eui = .ok node := by
        simpa [getNode, List.find?_cons, hn] using h
      have h2 := ih h1
      simp only [getNode, updateNode, List.map_cons, List.find?_cons] at h2 ⊢
      have hne : ¬ (if n.devEUI = node1.devEUI then node1 else n).devEUI
          = eui := by
        by_cases hm : n.devEUI = node1.devEUI
        · rw [if_pos hm]; rw [hkey]; rw [hm] at hn; rw [hkey] at hn; exact hn
        · rw [if_neg hm]; exact hn
      simp [hne]
      simpa [updateNode] using h2

/-- Every error branch of the join processor returns the state unchanged; the
only branch that mutates it reports success. -/
theorem joinProcessor_cases (ctx : Context) (st : ServerState) (p : RXPacket) :
    (validateAndCollectJoinRequestPacket ctx st p).1 = st ∨
    (validateAndCollectJoinRequestPacket ctx st p).2 = .ok () := by
  unfold validateAndCollectJoinRequestPacket
  split
  · left; rfl
  · split
    · left; rfl
    · split
      · left; rfl
      · split
        · left; rfl
        · right; rfl

/-- Every error branch of the data-up processor returns the state unchanged;
the only branch that mutates it reports success. -/
theorem dataUpProcessor_cases (ctx : Context) (st : ServerState)
    (p : RXPacket) :
    (validateAndCollectDataUpRXPacket ctx st p).1 = st ∨
    (validateAndCollectDataUpRXPacket ctx st p).2 = .ok () := by
  unfold validateAndCollectDataUpRXPacket
  split
  · left; rfl
  · split
    · left; rfl
    · split
      · left; rfl
      · right; rfl

/-- The dispatcher leaves the state unchanged or reports success. -/
theorem handleRXPacket_cases (ctx : Context) (st : ServerState)
    (p : RXPacket) :
    (handleRXPacket ctx st p).1 = st ∨ (handleRXPacket ctx st p).2 = .ok () := by
  unfold handleRXPacket
  cases hm : p.mtype
  · exact joinProcessor_cases ctx st p
  · left; rfl
  · exact dataUpProcessor_cases ctx st p
  · left; rfl
  · exact dataUpProcessor_cases ctx st p
  · left; rfl
  · left; rfl
  · left; rfl

/-- When the dispatcher reports an error, the state is unchanged (the packet
was dropped without effect). -/
theorem handleRXPacket_error_state {ctx : Context} {st : ServerState}
    {p : RXPacket} {e : LSError}
    (h : (handleRXPacket ctx st p).2 = .error e) :
    (handleRXPacket ctx st p).1 = st := by
  rcases handleRXPacket_cases ctx st p with h1 | h1
  · exact h1
  · have h2 := h1.symm.trans h
    simp at h2

/-- Splitting the packet stream splits the run: the second half runs from the
state the first half reaches, and the logs concatenate. -/
theorem handleRXPackets_append (ctx : Context) (xs ys : List RXPacket)
    (st : ServerState) :
    handleRXPackets ctx (xs ++ ys) st =
      ((handleRXPackets ctx ys (handleRXPackets ctx xs st).1).1,
        (handleRXPackets ctx xs st).2 ++
          (handleRXPackets ctx ys (handleRXPackets ctx xs st).1).2) := by
  induction xs generalizing st with
  | nil => simp [handleRXPackets]
  | cons p rest ih =>
    simp only [List.cons_append, handleRXPackets]
    cases hr : (handleRXPacket ctx st p).2 <;> simp [hr, ih]

/-- The TX-payload stream loop enqueues exactly the items whose backend call
succeeds and produces exactly one log entry, in order, for each item whose
backend call fails. -/
theorem handleTXPayloads_spec (f : TXPayload → Option String)
    (txs : List TXPayload) (tq : List TXPayload) :
    handleTXPayloads f txs tq =
      (tq ++ txs.filter (fun t => (f t).isNone),
        txs.filterMap (fun t =>
          (f t).map (fun s => "add tx-payload to queue error: " ++ s))) := by
  induction txs generalizing tq with
  | nil => simp [handleTXPayloads]
  | cons t rest ih =>
    cases hf : f t <;>
      simp [handleTXPayloads, hf, ih, List.filter_cons, List.filterMap_cons]

/-- The MAC-payload stream loop enqueues exactly the items whose backend call
succeeds and produces exactly one log entry, in order, for each item whose
backend call fails. -/
theorem handleTXMACPayloads_spec (g : MACPayload → Option String)
    (ms : List MACPayload) (mq : List MACPayload) :
    handleTXMACPayloads g ms mq =
      (mq ++ ms.filter (fun m => (g m).isNone),
        ms.filterMap (fun m =>
          (g m).map (fun s => "add tx mac-payload to queue error: " ++ s))) := by
  induction ms generalizing mq with
  | nil => simp [handleTXMACPayloads]
  | cons m rest ih =>
    cases hg : g m <;>
      simp [handleTXMACPayloads, hg, ih, List.filter_cons, List.filterMap_cons]

/-- Claim C7: on each of the three streams a per-item failure is reported
through logging only.  The two queue loops process every item, enqueue
exactly the successes and log exactly the failures; on the frame stream a
packet whose processing fails contributes exactly one log entry and nothing
else — the final state is the same as if the failing packet had not been
delivered, and the packets before and after it are processed unchanged. -/
theorem stream_failures_logged_and_isolated
    (f : TXPayload → Option String) (txs tq : List TXPayload)
    (g : MACPayload → Option String) (ms mq : List MACPayload)
    (ctx : Context) (xs ys : List RXPacket) (p : RXPacket)
    (st : ServerState) (e : LSError)
    (herr : (handleRXPacket ctx (handleRXPackets ctx xs st).1 p).2 =
      .error e) :
    handleTXPayloads f txs tq =
      (tq ++ txs.filter (fun t => (f t).isNone),
        txs.filterMap (fun t =>
          (f t).map (fun s => "add tx-payload to queue error: " ++ s))) ∧
    handleTXMACPayloads g ms mq =
      (mq ++ ms.filter (fun m => (g m).isNone),
        ms.filterMap (fun m =>
          (g m).map (fun s => "add tx mac-payload to queue error: " ++ s))) ∧
    (handleRXPackets ctx (xs ++ p :: ys) st).1 =
      (handleRXPackets ctx (xs ++ ys) st).1 ∧
    (handleRXPackets ctx (xs ++ p :: ys) st).2 =
      (handleRXPackets ctx xs st).2 ++ "processing rx packet error" ::
        (handleRXPackets ctx ys (handleRXPackets ctx xs st).1).2 := by
  have hst := handleRXPacket_error_state herr
  refine ⟨handleTXPayloads_spec f txs tq, handleTXMACPayloads_spec g ms mq,
    ?_, ?_⟩
  · rw [handleRXPackets_append ctx xs (p :: ys) st,
      handleRXPackets_append ctx xs ys st]
    simp only [handleRXPackets, hst, herr]
  · rw [handleRXPackets_append ctx xs (p :: ys) st]
    simp only [handleRXPackets, hst, herr]

/-- The C7 witness backend oracle: the Redis call fails (with error text
"io") exactly for payloads addressed to device identity 0. -/
def fC7 (t : TXPayload) : Option String :=
  if t.devEUI = 0 then some "io" else none

/-- The C7 witness MAC oracle: the Redis call fails exactly for commands
addressed to device identity 0. -/
def gC7 (m : MACPayload) : Option String :=
  if m.devEUI = 0 then some "redis" else none

/-- A payload whose enqueue succeeds under `fC7`. -/
def tC7good : TXPayload := { devEUI := 1, reference := "a", data := [1] }

/-- A payload whose enqueue fails under `fC7`. -/
def tC7bad : TXPayload := { devEUI := 0, reference := "b", data := [2] }

/-- A MAC command whose enqueue succeeds under `gC7`. -/
def mC7good : MACPayload := { devEUI := 2, reference := "c", macCommand := [3] }

/-- A MAC command whose enqueue fails under `gC7`. -/
def mC7bad : MACPayload := { devEUI := 0, reference := "d", macCommand := [4] }

/-- A frame whose processing fails (unsupported message type), delivered
between two other frames on the C7 witness stream. -/
def pC7 : RXPacket := { pJoinAccept with devNonce := 1 }

/-- Witness for C7: with one failing item on each stream, the queue loops
enqueue the successes and log one entry per failure, and on the frame stream
the failing packet contributes exactly one log entry while the final state
equals the one reached without it. -/
theorem stream_failures_logged_and_isolated_witness :
    handleTXPayloads fC7 [tC7bad, tC7good] [] =
      ([tC7good], ["add tx-payload to queue error: " ++ "io"]) ∧
    handleTXMACPayloads gC7 [mC7bad, mC7good] [] =
      ([mC7good], ["add tx mac-payload to queue error: " ++ "redis"]) ∧
    (handleRXPackets ctxW [pC7] stEmpty).1 =
      (handleRXPackets ctxW [] stEmpty).1 ∧
    (handleRXPackets ctxW [pC7] stEmpty).2 =
      (handleRXPackets ctxW [] stEmpty).2 ++ "processing rx packet error" ::
        (handleRXPackets ctxW []
          (handleRXPackets ctxW [] stEmpty).1).2 :=
  stream_failures_logged_and_isolated fC7 [tC7bad, tC7good] [] gC7
    [mC7bad, mC7good] [] ctxW [] [] pC7 stEmpty
    (.unknownMType .JoinAccept) rfl

/-- Claim C10: a node-update request for a device identity with no registry
record fails with a not-found error and mutates nothing; on success the
updated record keeps the device identity, takes application identity, root
key, receive-delay and RX1 data-rate offset from the request (the `uint32`
fields narrowed to `uint8`), and its channel-list reference is set exactly
when the requested identifier is strictly positive. -/
theorem nodeAPI_update_semantics (nodes : List Node)
    (req : UpdateNodeRequest) :
    (getNode nodes req.devEUI = .error .nodeNotFound →
      nodeAPIUpdate nodes req = (nodes, .error .nodeNotFound)) ∧
    (∀ node, getNode nodes req.devEUI = .ok node →
      node.devEUI = req.devEUI ∧
      nodeAPIUpdate nodes req =
        (updateNode nodes
          { node with
            appEUI := req.appEUI
            appKey := req.appKey
            rxDelay := req.rxDelay % 256
            rx1DROffset := req.rx1DROffset % 256
            channelListID :=
              if 0 < req.channelListID then some req.channelListID
              else none },
          .ok ()) ∧
      getNode (nodeAPIUpdate nodes req).1 req.devEUI =
        .ok { node with
          appEUI := req.appEUI
          appKey := req.appKey
          rxDelay := req.rxDelay % 256
          rx1DROffset := req.rx1DROffset % 256
          channelListID :=
            if 0 < req.channelListID then some req.channelListID
            else none }) := by
  constructor
  · intro h
    unfold nodeAPIUpdate
    split
    next e he =>
      rw [h] at he
      injection he with he
      subst he
      rfl
    next node hnode => rw [h] at hnode; simp at hnode
  · intro node h
    have hkey := getNode_ok_eui h
    have heq : nodeAPIUpdate nodes req =
        (updateNode nodes
          { node with
            appEUI := req.appEUI
            appKey := req.appKey
            rxDelay := req.rxDelay % 256
            rx1DROffset := req.rx1DROffset % 256
            channelListID :=
              if 0 < req.channelListID then some req.channelListID
              else none },
          .ok ()) := by
      unfold nodeAPIUpdate
      split
      next e he => rw [h] at he; simp at he
      next node' hnode' =>
        rw [h] at hnode'
        injection hnode' with hnode'
        subst hnode'
        rfl
    refine ⟨hkey, heq, ?_⟩
    rw [heq]
    exact getNode_updateNode h _ hkey

/-- The C10 witness request: delay 300 (narrowed to 44), offset 2, and a
zero channel-list identifier (so the reference is cleared). -/
def reqC10 : UpdateNodeRequest :=
  { appEUI := 77, devEUI := 9, appKey := 55, rxDelay := 300, rx1DROffset := 2,
    channelListID := 0 }

/-- The record the C10 witness expects after the update: device identity 9
kept, the other fields from `reqC10` (delay 300 narrowed to 44), channel-list
reference cleared. -/
def nodeC10out : Node :=
  { devEUI := 9, appEUI := 77, appKey := 55, rxDelay := 44, rx1DROffset := 2,
    channelListID := none }

/-- Witness for C10: updating the unknown device 123 fails with a not-found
error and leaves the registry list unchanged; updating device 9 keeps its
identity, replaces the other fields from the request (delay 300 narrowed to
44), and clears the channel-list reference. -/
theorem nodeAPI_update_semantics_witness :
    nodeAPIUpdate [nodeC2] { reqC10 with devEUI := 123 } =
      ([nodeC2], .error .nodeNotFound) ∧
    getNode (nodeAPIUpdate [nodeC2] reqC10).1 9 = .ok nodeC10out :=
  ⟨(nodeAPI_update_semantics [nodeC2] { reqC10 with devEUI := 123 }).1 rfl,
   ((nodeAPI_update_semantics [nodeC2] reqC10).2 nodeC2 rfl).2.2⟩

end LoraServer
